import Mathlib

/-!
# Verification of the crypto trading system's signal and position logic

A shallow embedding, in Lean 4, of the decision core of the trading system:

* `EnhancedPositionManager` (`position_manager.py`): position entry/exit,
  trailing-stop updates and P&L accounting, modelled as pure functions on an
  explicit state record (`PMState`).  The backtesting path is modelled (no
  database side effects; those are skipped by the source in backtesting mode
  and do not affect the in-memory state transitions modelled here).
* `ProTradingSystem._generate_entry_signals` (`trading_system.py`): the
  regime/confluence trigger formulas and the minimum-gap de-duplication scan,
  modelled over a frame of indicator columns.  Column values use `Option ℚ`
  (`none` models a NaN; comparisons against NaN are false, as in pandas).
* `MarketRegimeDetector.get_recommended_config`
  (`research/regime_detection/market_regime_detector.py`).
* The key sets of the indicator dictionary built by
  `TechnicalIndicators.calculate_all_indicators` (`indicators.py`) and the
  keys accessed by `ProTradingSystem.calculate_signals`, used to settle the
  claim about the calculate-signals pipeline.

Prices, indicator values and multipliers are modelled as rationals (`ℚ`);
bar indices and timestamps as integers.
-/

/-! ## Configuration (`config.py`, `TradingConfig`)

Only the fields consumed by the modelled functions are included, with the
source's default values.  `enable_research_mode` / `research_simple_signals`
are not dataclass fields in the source; they are read with
`getattr(self.config, ..., False)`, so they default to `false` unless a
caller sets them dynamically — they are modelled as ordinary fields with
default `false`. -/

structure TradingConfig where
  min_bars_gap : Int := 4
  allow_long_trades : Bool := true
  allow_short_trades : Bool := true
  ultra_strict_mode : Bool := false
  enable_regime_filter : Bool := true
  enable_adaptive_gap_filtering : Bool := false
  enable_research_mode : Bool := false
  research_simple_signals : Bool := false
  stop_loss_multiplier : ℚ := 3
  take_profit_1_multiplier : ℚ := 4
  take_profit_2_multiplier : ℚ := 8
  trailing_stop_factor : ℚ := 55/100
  trailing_activation : ℚ := 25/1000
  dynamic_trailing : Bool := true
  choppy_min_bars_gap : Int := 12
  trending_min_bars_gap : Int := 6
  deriving Repr, DecidableEq

def defaultTradingConfig : TradingConfig := {}

/-! ## Position manager (`position_manager.py`) -/

/-- `Position` dataclass: an active trading position. -/
structure Position where
  entry_price : ℚ
  entry_time : Int
  trade_type : String
  stop_loss : ℚ
  take_profit_1 : ℚ
  take_profit_2 : ℚ
  trailing_stop : Option ℚ := none
  entry_bar : Int := 0
  is_active : Bool := true
  quantity : ℚ := 0
  deriving Repr, DecidableEq

/-- `Trade` dataclass: a completed trade record. -/
structure Trade where
  entry_price : ℚ
  exit_price : ℚ
  entry_time : Int
  exit_time : Int
  trade_type : String
  pnl_percent : ℚ
  exit_reason : String
  duration_bars : Int
  quantity : ℚ := 0
  pnl_amount : ℚ := 0
  fees : ℚ := 0
  deriving Repr, DecidableEq

/-- The mutable state of `EnhancedPositionManager` (backtesting path; initial
values as in `__init__` / `reset`). -/
structure PMState where
  current_position : Option Position := none
  trade_history : List Trade := []
  last_buy_bar : Int := -999
  last_sell_bar : Int := -999
  current_bar : Int := 0
  deriving Repr, DecidableEq

/-- `EnhancedPositionManager.reset`. -/
def resetState : PMState := {}

/-- `EnhancedPositionManager.update_bar`. -/
def updateBar (s : PMState) (bar_index : Int) : PMState :=
  { s with current_bar := bar_index }

/-- `EnhancedPositionManager.is_in_trade` (backtesting mode: only the local
position is consulted). -/
def isInTrade (s : PMState) : Bool :=
  match s.current_position with
  | none => false
  | some p => p.is_active

/-- `EnhancedPositionManager.can_enter_trade`: no active position, and the
minimum bar gap has elapsed since both the last buy bar and the last sell
bar. -/
def canEnterTrade (cfg : TradingConfig) (s : PMState) : Bool :=
  if isInTrade s then false
  else
    decide (s.current_bar - s.last_buy_bar ≥ cfg.min_bars_gap) &&
    decide (s.current_bar - s.last_sell_bar ≥ cfg.min_bars_gap)

/-- `EnhancedPositionManager.calculate_position_levels`:
(stop_loss, take_profit_1, take_profit_2) from entry price and ATR. -/
def calculatePositionLevels (cfg : TradingConfig) (entry_price : ℚ)
    (trade_type : String) (atr : ℚ) : ℚ × ℚ × ℚ :=
  if trade_type = "LONG" then
    (entry_price - atr * cfg.stop_loss_multiplier,
     entry_price + atr * cfg.take_profit_1_multiplier,
     entry_price + atr * cfg.take_profit_2_multiplier)
  else
    (entry_price + atr * cfg.stop_loss_multiplier,
     entry_price - atr * cfg.take_profit_1_multiplier,
     entry_price - atr * cfg.take_profit_2_multiplier)

/-- `EnhancedPositionManager.enter_position`: returns the success flag and
the next state. -/
def enterPosition (cfg : TradingConfig) (trade_type : String) (price : ℚ)
    (timestamp : Int) (atr : ℚ) (quantity : ℚ) (s : PMState) :
    Bool × PMState :=
  if ¬ canEnterTrade cfg s then (false, s)
  else
    let levels := calculatePositionLevels cfg price trade_type atr
    let pos : Position :=
      { entry_price := price
        entry_time := timestamp
        trade_type := trade_type
        stop_loss := levels.1
        take_profit_1 := levels.2.1
        take_profit_2 := levels.2.2
        trailing_stop := none
        entry_bar := s.current_bar
        is_active := true
        quantity := quantity }
    let s' := { s with current_position := some pos }
    if trade_type = "LONG" then (true, { s' with last_buy_bar := s.current_bar })
    else (true, { s' with last_sell_bar := s.current_bar })

/-- The profit-tiered trail factor of
`EnhancedPositionManager.update_trailing_stop`. -/
def trailFactorFor (cfg : TradingConfig) (current_profit_pct : ℚ) : ℚ :=
  if cfg.dynamic_trailing then
    if current_profit_pct > 6/100 then 40/100
    else if current_profit_pct > 4/100 then 50/100
    else if current_profit_pct > 2/100 then 60/100
    else cfg.trailing_stop_factor
  else cfg.trailing_stop_factor

/-- `EnhancedPositionManager.update_trailing_stop`. -/
def updateTrailingStop (cfg : TradingConfig) (current_price atr : ℚ)
    (s : PMState) : PMState :=
  if ¬ isInTrade s then s
  else
    match s.current_position with
    | none => s
    | some position =>
      if position.trade_type = "LONG" then
        let current_profit_pct :=
          (current_price - position.entry_price) / position.entry_price
        let trail_factor := trailFactorFor cfg current_profit_pct
        if current_profit_pct > cfg.trailing_activation then
          let new_trail :=
            current_price - atr * cfg.stop_loss_multiplier * trail_factor
          match position.trailing_stop with
          | none =>
            { s with current_position := some ({ position with trailing_stop := some new_trail }) }
          | some t =>
            if new_trail > t then
              { s with current_position := some ({ position with trailing_stop := some new_trail }) }
            else s
        else s
      else
        let current_profit_pct :=
          (position.entry_price - current_price) / position.entry_price
        let trail_factor := trailFactorFor cfg current_profit_pct
        if current_profit_pct > cfg.trailing_activation then
          let new_trail :=
            current_price + atr * cfg.stop_loss_multiplier * trail_factor
          match position.trailing_stop with
          | none =>
            { s with current_position := some ({ position with trailing_stop := some new_trail }) }
          | some t =>
            if new_trail < t then
              { s with current_position := some ({ position with trailing_stop := some new_trail }) }
            else s
        else s

/-- Python truthiness of `position.trailing_stop` as used in
`check_exit_conditions` (`position.trailing_stop and ...`): `None` and `0.0`
are both falsy. -/
def trailTruthy : Option ℚ → Bool
  | none => false
  | some v => decide (v ≠ 0)

/-- `EnhancedPositionManager.check_exit_conditions`. -/
def checkExitConditions (s : PMState) (current_price : ℚ) (timestamp : Int)
    (sell_signal buy_signal : Bool) : Bool × String :=
  if ¬ isInTrade s then (false, "")
  else
    match s.current_position with
    | none => (false, "")
    | some position =>
      if position.trade_type = "LONG" then
        if sell_signal then (true, "Opposite Signal")
        else if current_price ≤ position.stop_loss then (true, "Stop Loss")
        else if current_price ≥ position.take_profit_2 then (true, "Take Profit 2")
        else if trailTruthy position.trailing_stop &&
            decide (current_price ≤ position.trailing_stop.getD 0) then
          (true, "Trailing Stop")
        else (false, "")
      else
        if buy_signal then (true, "Opposite Signal")
        else if current_price ≥ position.stop_loss then (true, "Stop Loss")
        else if current_price ≤ position.take_profit_2 then (true, "Take Profit 2")
        else if trailTruthy position.trailing_stop &&
            decide (current_price ≥ position.trailing_stop.getD 0) then
          (true, "Trailing Stop")
        else (false, "")

/-- `EnhancedPositionManager.exit_position`: returns the recorded trade (if
any) and the next state. -/
def exitPosition (s : PMState) (exit_price : ℚ) (exit_time : Int)
    (exit_reason : String) : Option Trade × PMState :=
  if ¬ isInTrade s then (none, s)
  else
    match s.current_position with
    | none => (none, s)
    | some position =>
      let pnl_percent :=
        if position.trade_type = "LONG" then
          (exit_price - position.entry_price) / position.entry_price * 100
        else
          (position.entry_price - exit_price) / position.entry_price * 100
      let pnl_amount :=
        if position.quantity > 0 then
          (pnl_percent / 100) * position.quantity * position.entry_price
        else 0
      let trade : Trade :=
        { entry_price := position.entry_price
          exit_price := exit_price
          entry_time := position.entry_time
          exit_time := exit_time
          trade_type := position.trade_type
          pnl_percent := pnl_percent
          exit_reason := exit_reason
          duration_bars := s.current_bar - position.entry_bar
          quantity := position.quantity
          pnl_amount := pnl_amount }
      (some trade,
       { s with trade_history := s.trade_history ++ [trade],
                current_position := none })

/-! ## Key sets of the indicator dictionary (`indicators.py` /
`trading_system.py`)

`TechnicalIndicators.calculate_all_indicators` builds a dictionary with a
fixed key set (the `advanced` entry is always present: it is either the
result of `calculate_advanced_conditions` or an empty fallback dictionary).
`ProTradingSystem.calculate_signals` then subscripts that dictionary with a
fixed sequence of keys (`'advanced'` alone is guarded by an explicit
membership test in the source, so it is not a hard requirement). -/

/-- Keys of the dictionary returned by
`TechnicalIndicators.calculate_all_indicators`, in construction order. -/
def calculateAllIndicatorsKeys : List String :=
  ["ema", "rsi", "macd", "atr", "trend", "momentum", "price_action",
   "volume", "advanced"]

/-- Keys of the dictionary returned by
`TechnicalIndicators.calculate_advanced_conditions`, in construction order
(these become the `advanced_*` columns of the signal frame). -/
def calculateAdvancedConditionsKeys : List String :=
  ["strong_bull_trend", "strong_bear_trend", "price_momentum_bull",
   "price_momentum_bear", "high_volatility", "low_volatility",
   "normal_volatility", "trending_market", "ranging_market",
   "rsi_bull_momentum", "rsi_bear_momentum", "macd_accelerating_bull",
   "macd_accelerating_bear", "ema_separation_bull", "ema_separation_bear",
   "atr_pct"]

/-- Keys that `ProTradingSystem.calculate_signals` subscripts (unguarded) on
the indicator dictionary, in access order. -/
def calculateSignalsRequiredKeys : List String :=
  ["ema", "rsi", "macd", "atr", "adx", "trend", "momentum", "price_action",
   "volume"]

/-- The first unguarded key access of `calculate_signals` that is missing
from the indicator dictionary — the point where the source raises a
`KeyError` (for every input, since the key set does not depend on the
data). -/
def calculateSignalsFirstMissingKey : Option String :=
  calculateSignalsRequiredKeys.find?
    (fun k => ! calculateAllIndicatorsKeys.contains k)

/-- The `advanced_*` columns that the regime-filter branch of
`_generate_entry_signals` subscripts on the signal frame. -/
def regimeFilterAdvancedKeys : List String :=
  ["adx_choppy", "adx_strong_trending"]

/-! ## Regime detector recommended config
(`research/regime_detection/market_regime_detector.py`) -/

/-- The dictionary returned by `MarketRegimeDetector.get_recommended_config`. -/
structure RecommendedConfig where
  allow_long_trades : Bool
  allow_short_trades : Bool
  stop_loss_multiplier : ℚ
  take_profit_1_multiplier : ℚ
  take_profit_2_multiplier : ℚ
  min_bars_gap : Int
  enable_regime_filter : Bool
  strategy_bias : String
  reason : String
  deriving Repr, DecidableEq

/-- The regime labels that `MarketRegimeDetector.detect_regime` can assign
to `self.regime`. -/
def detectRegimeLabels : List String := ["BULL", "BEAR", "RANGING"]

/-- `MarketRegimeDetector.get_recommended_config`: `self.regime` is `none`
before `detect_regime` has run (then the source raises `ValueError`),
otherwise one of the detected labels; any label other than `"BULL"` and
`"BEAR"` takes the `RANGING` branch. -/
def getRecommendedConfig (regime : Option String) :
    Except String RecommendedConfig :=
  match regime with
  | none => .error "Must call detect_regime() first"
  | some r =>
    if r = "BULL" then
      .ok { allow_long_trades := true
            allow_short_trades := true
            stop_loss_multiplier := 3
            take_profit_1_multiplier := 4
            take_profit_2_multiplier := 8
            min_bars_gap := 6
            enable_regime_filter := true
            strategy_bias := "LONG_BIASED"
            reason := "Bull market detected - use standard trend-following" }
    else if r = "BEAR" then
      .ok { allow_long_trades := false
            allow_short_trades := true
            stop_loss_multiplier := 25/10
            take_profit_1_multiplier := 3
            take_profit_2_multiplier := 5
            min_bars_gap := 8
            enable_regime_filter := true
            strategy_bias := "SHORT_ONLY"
            reason := "Bear market detected - SHORT-ONLY mode to avoid long losses" }
    else
      .ok { allow_long_trades := true
            allow_short_trades := true
            stop_loss_multiplier := 2
            take_profit_1_multiplier := 25/10
            take_profit_2_multiplier := 4
            min_bars_gap := 10
            enable_regime_filter := true
            strategy_bias := "NEUTRAL"
            reason := "Ranging market detected - tight risk, high selectivity" }

/-! ## Helper lemmas for the position manager -/

theorem enterPosition_fst (cfg : TradingConfig) (trade_type : String)
    (price : ℚ) (timestamp : Int) (atr quantity : ℚ) (s : PMState) :
    (enterPosition cfg trade_type price timestamp atr quantity s).1 =
      canEnterTrade cfg s := by
  unfold enterPosition
  by_cases c : canEnterTrade cfg s <;> simp [c, apply_ite Prod.fst]

theorem canEnterTrade_eq_false_iff (cfg : TradingConfig) (s : PMState) :
    canEnterTrade cfg s = false ↔
      (isInTrade s = true ∨
       s.current_bar - s.last_buy_bar < cfg.min_bars_gap ∨
       s.current_bar - s.last_sell_bar < cfg.min_bars_gap) := by
  unfold canEnterTrade
  by_cases h : isInTrade s <;> simp [h, not_le]
  omega

/-! ## Claim theorems: position manager -/

/-- Claim C2: whenever a position is active, every further `enter_position`
call returns failure and leaves the whole position-manager state — in
particular the active position and the trade history — unchanged, so at most
one active position can exist at any time. -/
theorem enterPosition_rejected_when_active (cfg : TradingConfig) (s : PMState)
    (trade_type : String) (price : ℚ) (timestamp : Int) (atr quantity : ℚ)
    (h : isInTrade s = true) :
    enterPosition cfg trade_type price timestamp atr quantity s = (false, s) := by
  unfold enterPosition canEnterTrade
  simp [h]

def openLongPosition : Position :=
  { entry_price := 100, entry_time := 0, trade_type := "LONG", stop_loss := 97,
    take_profit_1 := 104, take_profit_2 := 108, trailing_stop := none,
    entry_bar := 0, is_active := true, quantity := 1 }

def stateWithOpenLong : PMState :=
  { current_position := some openLongPosition, trade_history := [],
    last_buy_bar := 0, last_sell_bar := -999, current_bar := 3 }

/-- Claim C2, witness: a concrete state with an open LONG position rejects a
further entry and is left unchanged. -/
theorem enterPosition_rejected_when_active_witness :
    isInTrade stateWithOpenLong = true ∧
    enterPosition defaultTradingConfig "SHORT" 105 4 2 1 stateWithOpenLong =
      (false, stateWithOpenLong) :=
  ⟨by decide,
   enterPosition_rejected_when_active defaultTradingConfig stateWithOpenLong
     "SHORT" 105 4 2 1 (by decide)⟩

/-- Claim C5 (amended): `enter_position` is rejected as a no-op exactly when
a position is already open for the symbol **or** when fewer than
`min_bars_gap` bars have elapsed since the last buy entry **or** since the
last sell entry (the gap check applies to both directions, not only the same
direction as the requested entry); in every other state the entry
succeeds. -/
theorem enterPosition_reject_iff (cfg : TradingConfig) (trade_type : String)
    (price : ℚ) (timestamp : Int) (atr quantity : ℚ) (s : PMState) :
    ((enterPosition cfg trade_type price timestamp atr quantity s).1 = false ↔
      (isInTrade s = true ∨
       s.current_bar - s.last_buy_bar < cfg.min_bars_gap ∨
       s.current_bar - s.last_sell_bar < cfg.min_bars_gap)) ∧
    ((enterPosition cfg trade_type price timestamp atr quantity s).1 = false →
      (enterPosition cfg trade_type price timestamp atr quantity s).2 = s) := by
  constructor
  · rw [enterPosition_fst]
    exact canEnterTrade_eq_false_iff cfg s
  · intro hfail
    unfold enterPosition at hfail ⊢
    by_cases c : canEnterTrade cfg s
    · simp [c, apply_ite Prod.fst] at hfail
    · simp [c]

def gapBlockedState : PMState :=
  { current_position := none, trade_history := [],
    last_buy_bar := -999, last_sell_bar := 0, current_bar := 2 }

/-- Claim C5, witness for the amended theorem: the entry is rejected in a
state where only the opposite-direction gap is violated. -/
theorem enterPosition_reject_iff_witness :
    (enterPosition defaultTradingConfig "LONG" 100 2 1 1 gapBlockedState).1 =
      false :=
  (enterPosition_reject_iff defaultTradingConfig "LONG" 100 2 1 1
      gapBlockedState).1.mpr (Or.inr (Or.inr (by decide)))

/-- Claim C5, counterexample to the claim as stated: no position is open and
the same-direction (LONG) gap has long elapsed, yet the LONG entry is
rejected — because only 2 bars have elapsed since the last SHORT entry. -/
theorem enterPosition_opposite_gap_counterexample :
    isInTrade gapBlockedState = false ∧
    gapBlockedState.current_bar - gapBlockedState.last_buy_bar ≥
      defaultTradingConfig.min_bars_gap ∧
    (enterPosition defaultTradingConfig "LONG" 100 2 1 1 gapBlockedState).1 =
      false := by
  decide

/-! ## Exit-priority specification (spec §4.4 wording) -/

/-- The exit conditions of the claim, in the spec's priority order, paired
with their reasons.  "A trailing stop is set" is read literally as
`trailing_stop ≠ none`. -/
def claimedExitConditions (position : Position) (current_price : ℚ)
    (sell_signal buy_signal : Bool) : List (Bool × String) :=
  if position.trade_type = "LONG" then
    [(sell_signal, "Opposite Signal"),
     (decide (current_price ≤ position.stop_loss), "Stop Loss"),
     (decide (current_price ≥ position.take_profit_2), "Take Profit 2"),
     (position.trailing_stop.isSome &&
        decide (current_price ≤ position.trailing_stop.getD 0), "Trailing Stop")]
  else
    [(buy_signal, "Opposite Signal"),
     (decide (current_price ≥ position.stop_loss), "Stop Loss"),
     (decide (current_price ≤ position.take_profit_2), "Take Profit 2"),
     (position.trailing_stop.isSome &&
        decide (current_price ≥ position.trailing_stop.getD 0), "Trailing Stop")]

/-- The amended exit conditions: the trailing-stop condition applies only
when the trailing stop is set **to a non-zero level** (the source tests the
Python truthiness of `position.trailing_stop`). -/
def amendedExitConditions (position : Position) (current_price : ℚ)
    (sell_signal buy_signal : Bool) : List (Bool × String) :=
  if position.trade_type = "LONG" then
    [(sell_signal, "Opposite Signal"),
     (decide (current_price ≤ position.stop_loss), "Stop Loss"),
     (decide (current_price ≥ position.take_profit_2), "Take Profit 2"),
     (trailTruthy position.trailing_stop &&
        decide (current_price ≤ position.trailing_stop.getD 0), "Trailing Stop")]
  else
    [(buy_signal, "Opposite Signal"),
     (decide (current_price ≥ position.stop_loss), "Stop Loss"),
     (decide (current_price ≤ position.take_profit_2), "Take Profit 2"),
     (trailTruthy position.trailing_stop &&
        decide (current_price ≥ position.trailing_stop.getD 0), "Trailing Stop")]

/-- The reason of the first condition that holds, scanning in order. -/
def firstHoldingReason : List (Bool × String) → Option String
  | [] => none
  | (b, r) :: rest => if b then some r else firstHoldingReason rest

/-- Claim C3 (amended): for every open position, `check_exit_conditions`
returns the reason of the first condition that holds in the priority order
opposite-signal, stop-loss, take-profit-2, trailing-stop — where the
trailing-stop condition is considered only when the trailing stop is set to
a non-zero level; in particular, when both the stop-loss and take-profit-2
conditions hold and no opposite signal is present, the returned reason is
"Stop Loss". -/
theorem checkExit_priority (s : PMState) (position : Position)
    (hpos : s.current_position = some position)
    (hact : position.is_active = true)
    (current_price : ℚ) (timestamp : Int) (sell_signal buy_signal : Bool) :
    (checkExitConditions s current_price timestamp sell_signal buy_signal =
      match firstHoldingReason
          (amendedExitConditions position current_price sell_signal buy_signal) with
       | some r => (true, r)
       | none => (false, "")) ∧
    (position.trade_type = "LONG" → sell_signal = false →
      current_price ≤ position.stop_loss →
      current_price ≥ position.take_profit_2 →
      checkExitConditions s current_price timestamp sell_signal buy_signal =
        (true, "Stop Loss")) := by
  have hin : isInTrade s = true := by
    unfold isInTrade; rw [hpos]; exact hact
  have hmain : checkExitConditions s current_price timestamp sell_signal buy_signal =
      match firstHoldingReason
          (amendedExitConditions position current_price sell_signal buy_signal) with
       | some r => (true, r)
       | none => (false, "") := by
    unfold checkExitConditions amendedExitConditions
    rw [hin, hpos]
    simp only [Bool.true_eq_false, not_true_eq_false, if_false]
    by_cases ht : position.trade_type = "LONG" <;>
      simp only [ht, if_true, if_false] <;>
      by_cases h1 : (if ht' : position.trade_type = "LONG" then sell_signal else buy_signal) = true <;>
      simp_all [firstHoldingReason] <;>
      split_ifs <;>
      simp_all [firstHoldingReason]
  refine ⟨hmain, ?_⟩
  intro ht hs hsl htp
  rw [hmain]
  simp [amendedExitConditions, firstHoldingReason, ht, hs, hsl]

def slTpPosition : Position :=
  { entry_price := 4, entry_time := 0, trade_type := "LONG", stop_loss := 5,
    take_profit_1 := 2, take_profit_2 := 3, trailing_stop := none,
    entry_bar := 0, is_active := true, quantity := 1 }

def slTpState : PMState :=
  { current_position := some slTpPosition, trade_history := [],
    last_buy_bar := 0, last_sell_bar := -999, current_bar := 5 }

/-- Claim C3, witness: on a bar where both the stop-loss and take-profit-2
conditions hold for a LONG position and no opposite signal is present, the
exit reason is "Stop Loss". -/
theorem checkExit_priority_witness :
    checkExitConditions slTpState 4 1 false false = (true, "Stop Loss") :=
  (checkExit_priority slTpState slTpPosition rfl rfl 4 1 false false).2
    rfl rfl (by decide) (by decide)

def shortTrailZeroPosition : Position :=
  { entry_price := 10, entry_time := 0, trade_type := "SHORT", stop_loss := 20,
    take_profit_1 := 5, take_profit_2 := 1, trailing_stop := some 0,
    entry_bar := 0, is_active := true, quantity := 1 }

def shortTrailZeroState : PMState :=
  { current_position := some shortTrailZeroPosition, trade_history := [],
    last_buy_bar := -999, last_sell_bar := 0, current_bar := 5 }

/-- Claim C3, counterexample to the claim as stated: a SHORT position whose
trailing stop is set (to 0).  The trailing-stop condition is the first (and
only) condition of the claimed priority list that holds, so the claim says
the exit reason is "Trailing Stop" — but the source skips the check because
`0.0` is falsy in Python, and reports no exit at all. -/
theorem checkExit_trailing_zero_counterexample :
    firstHoldingReason
        (claimedExitConditions shortTrailZeroPosition 5 false false) =
      some "Trailing Stop" ∧
    checkExitConditions shortTrailZeroState 5 6 false false = (false, "") := by
  decide

/-! ## Claim C4: P&L on exit -/

/-- Claim C4 (amended): whenever `exit_position` closes an active position,
the recorded trade has `pnl_percent` equal to
(exit − entry)/entry × 100 for a LONG and (entry − exit)/entry × 100
otherwise, and `pnl_amount` equal to pnl_percent/100 × quantity ×
entry_price **when the quantity is positive**, and 0 otherwise; the trade is
appended to the history and the active position is cleared. -/
theorem exitPosition_pnl (s : PMState) (position : Position)
    (hpos : s.current_position = some position)
    (hact : position.is_active = true)
    (exit_price : ℚ) (exit_time : Int) (exit_reason : String) :
    ∃ trade : Trade,
      exitPosition s exit_price exit_time exit_reason =
        (some trade,
         { s with trade_history := s.trade_history ++ [trade],
                  current_position := none }) ∧
      trade.pnl_percent =
        (if position.trade_type = "LONG" then
          (exit_price - position.entry_price) / position.entry_price * 100
         else
          (position.entry_price - exit_price) / position.entry_price * 100) ∧
      trade.pnl_amount =
        (if position.quantity > 0 then
          trade.pnl_percent / 100 * position.quantity * position.entry_price
         else 0) := by
  have hin : isInTrade s = true := by
    unfold isInTrade; rw [hpos]; exact hact
  unfold exitPosition
  rw [hin, hpos]
  simp only [Bool.true_eq_false, not_true_eq_false, if_false]
  exact ⟨_, rfl, rfl, rfl⟩

def longAt100Position : Position :=
  { entry_price := 100, entry_time := 0, trade_type := "LONG",
    stop_loss := 94, take_profit_1 := 108, take_profit_2 := 116,
    trailing_stop := none, entry_bar := 2, is_active := true, quantity := 1 }

def longAt100State : PMState :=
  { current_position := some longAt100Position, trade_history := [],
    last_buy_bar := 2, last_sell_bar := -999, current_bar := 7 }

/-- Claim C4, witness: a LONG entered at 100 with quantity 1 and exited at
110 records pnl_percent = +10 and pnl_amount = 10. -/
theorem exitPosition_pnl_witness :
    (exitPosition longAt100State 110 9 "Take Profit 2").1.map
        Trade.pnl_percent = some 10 ∧
    (exitPosition longAt100State 110 9 "Take Profit 2").1.map
        Trade.pnl_amount = some 10 := by
  obtain ⟨trade, heq, hp, ha⟩ :=
    exitPosition_pnl longAt100State longAt100Position rfl rfl 110 9
      "Take Profit 2"
  rw [heq]
  norm_num [longAt100Position] at hp ha
  simp [hp, ha]

def negQtyLongPosition : Position :=
  { entry_price := 100, entry_time := 0, trade_type := "LONG",
    stop_loss := 94, take_profit_1 := 108, take_profit_2 := 116,
    trailing_stop := none, entry_bar := 2, is_active := true, quantity := -1 }

def negQtyLongState : PMState :=
  { current_position := some negQtyLongPosition, trade_history := [],
    last_buy_bar := 2, last_sell_bar := -999, current_bar := 7 }

/-- Claim C4, counterexample to the claim as stated: with a (degenerate)
negative quantity of −1, the source records pnl_amount = 0 (its guard is
`quantity > 0`), while the claimed formula pnl_percent/100 × quantity ×
entry_price evaluates to −10 ≠ 0. -/
theorem exitPosition_negative_quantity_counterexample :
    (exitPosition negQtyLongState 110 9 "End of Data").1.map
        Trade.pnl_percent = some 10 ∧
    (exitPosition negQtyLongState 110 9 "End of Data").1.map
        Trade.pnl_amount = some 0 ∧
    (0 : ℚ) ≠ 10 / 100 * (-1) * 100 := by
  refine ⟨?_, ?_, by norm_num⟩ <;>
    norm_num [exitPosition, isInTrade, negQtyLongState, negQtyLongPosition]

/-! ## Claim C7: trailing-stop activation and monotonicity -/

/-- The trailing stop recorded in a state (if any). -/
def trailingOf (s : PMState) : Option ℚ :=
  match s.current_position with
  | none => none
  | some p => p.trailing_stop

/-- Fold a list of `(current_price, atr)` updates through
`update_trailing_stop`. -/
def applyTrailingUpdates (cfg : TradingConfig) (s : PMState)
    (l : List (ℚ × ℚ)) : PMState :=
  l.foldl (fun st pa => updateTrailingStop cfg pa.1 pa.2 st) s

theorem updateTrailingStop_step (cfg : TradingConfig) (price atr : ℚ)
    (s : PMState) (position : Position)
    (hpos : s.current_position = some position)
    (hact : position.is_active = true) :
    ∃ ts' : Option ℚ,
      updateTrailingStop cfg price atr s =
        { s with current_position := some ({ position with trailing_stop := ts' }) } ∧
      (∀ t, position.trailing_stop = some t →
        ∃ t', ts' = some t' ∧
          (position.trade_type = "LONG" → t ≤ t') ∧
          (position.trade_type ≠ "LONG" → t' ≤ t)) ∧
      (position.trailing_stop = none → ts'.isSome = true →
        (if position.trade_type = "LONG" then
           (price - position.entry_price) / position.entry_price
         else (position.entry_price - price) / position.entry_price) >
          cfg.trailing_activation) := by
  have hin : isInTrade s = true := by
    unfold isInTrade; rw [hpos]; exact hact
  have hself :
      { s with current_position := some ({ position with trailing_stop := position.trailing_stop }) } = s := by
    rw [← hpos]
  unfold updateTrailingStop
  rw [hin, hpos]
  simp only [Bool.true_eq_false, not_true_eq_false, if_false]
  by_cases ht : position.trade_type = "LONG" <;> simp only [ht, if_true, if_false]
  · by_cases hp : (price - position.entry_price) / position.entry_price >
        cfg.trailing_activation
    · rw [if_pos hp]
      rcases hts : position.trailing_stop with _ | t <;> dsimp only
      · exact ⟨some _, rfl, by simp, fun _ _ => by simpa [ht] using hp⟩
      · by_cases hgt : price - atr * cfg.stop_loss_multiplier *
            trailFactorFor cfg ((price - position.entry_price) / position.entry_price) > t
        · rw [if_pos hgt]
          refine ⟨some _, rfl, ?_, by simp⟩
          intro u hu
          obtain rfl : t = u := Option.some.inj hu
          exact ⟨_, rfl, fun _ => le_of_lt hgt, by simp [ht]⟩
        · rw [if_neg hgt]
          refine ⟨some t, ?_, ?_, by simp⟩
          · rw [← hts, ← ht]; exact hself.symm
          · intro u hu
            obtain rfl : t = u := Option.some.inj hu
            exact ⟨t, rfl, fun _ => le_refl t, by simp [ht]⟩
    · rw [if_neg hp]
      refine ⟨position.trailing_stop, by rw [← ht]; exact hself.symm, ?_, by simp [hp, ht]⟩
      intro u hu
      exact ⟨u, hu, fun _ => le_refl u, by simp [ht]⟩
  · by_cases hp : (position.entry_price - price) / position.entry_price >
        cfg.trailing_activation
    · rw [if_pos hp]
      rcases hts : position.trailing_stop with _ | t <;> dsimp only
      · exact ⟨some _, rfl, by simp, fun _ _ => by simpa [ht] using hp⟩
      · by_cases hlt : price + atr * cfg.stop_loss_multiplier *
            trailFactorFor cfg ((position.entry_price - price) / position.entry_price) < t
        · rw [if_pos hlt]
          refine ⟨some _, rfl, ?_, by simp⟩
          intro u hu
          obtain rfl : t = u := Option.some.inj hu
          exact ⟨_, rfl, by simp [ht], fun _ => le_of_lt hlt⟩
        · rw [if_neg hlt]
          refine ⟨some t, ?_, ?_, by simp⟩
          · rw [← hts]; exact hself.symm
          · intro u hu
            obtain rfl : t = u := Option.some.inj hu
            exact ⟨t, rfl, by simp [ht], fun _ => le_refl t⟩
    · rw [if_neg hp]
      refine ⟨position.trailing_stop, hself.symm, ?_, by simp [hp, ht]⟩
      intro u hu
      exact ⟨u, hu, by simp [ht], fun _ => le_refl u⟩

theorem trailingStop_fold_mono (cfg : TradingConfig) :
    ∀ (l : List (ℚ × ℚ)) (s : PMState) (position : Position),
      s.current_position = some position → position.is_active = true →
      ∀ t, position.trailing_stop = some t →
      ∃ t', trailingOf (applyTrailingUpdates cfg s l) = some t' ∧
        (position.trade_type = "LONG" → t ≤ t') ∧
        (position.trade_type ≠ "LONG" → t' ≤ t) := by
  intro l
  induction l with
  | nil =>
    intro s position hpos hact t hts
    exact ⟨t, by simp [applyTrailingUpdates, trailingOf, hpos, hts],
      fun _ => le_refl t, fun _ => le_refl t⟩
  | cons pa rest ih =>
    intro s position hpos hact t hts
    obtain ⟨ts', heq, hmono, _⟩ :=
      updateTrailingStop_step cfg pa.1 pa.2 s position hpos hact
    obtain ⟨t₁, hts1, hlong1, hshort1⟩ := hmono t hts
    have hstep : applyTrailingUpdates cfg s (pa :: rest) =
        applyTrailingUpdates cfg (updateTrailingStop cfg pa.1 pa.2 s) rest := rfl
    rw [hstep, heq]
    obtain ⟨t', ht', hl, hs'⟩ :=
      ih ({ s with current_position := some ({ position with trailing_stop := ts' }) })
        ({ position with trailing_stop := ts' }) rfl hact t₁ hts1
    exact ⟨t', ht', fun h => (hlong1 h).trans (hl h),
      fun h => (hs' h).trans (hshort1 h)⟩

/-- Claim C7: `update_trailing_stop` sets a trailing stop only when the
unrealized profit fraction strictly exceeds `trailing_activation` (mirrored
for SHORT), and once set, the trailing stop never decreases for a LONG
position (never increases for a SHORT position) across successive
`update_trailing_stop` calls with non-decreasing prices. -/
theorem trailing_stop_activation_monotone (cfg : TradingConfig) (s : PMState)
    (position : Position) (hpos : s.current_position = some position)
    (hact : position.is_active = true) :
    (∀ price atr, position.trailing_stop = none →
       (trailingOf (updateTrailingStop cfg price atr s)).isSome = true →
       (if position.trade_type = "LONG" then
          (price - position.entry_price) / position.entry_price
        else (position.entry_price - price) / position.entry_price) >
         cfg.trailing_activation) ∧
    (∀ t, position.trailing_stop = some t →
      ∀ l : List (ℚ × ℚ), List.Chain' (· ≤ ·) (l.map Prod.fst) →
        ∃ t', trailingOf (applyTrailingUpdates cfg s l) = some t' ∧
          (position.trade_type = "LONG" → t ≤ t') ∧
          (position.trade_type ≠ "LONG" → t' ≤ t)) := by
  constructor
  · intro price atr htsn hsome
    obtain ⟨ts', heq, _, hart⟩ :=
      updateTrailingStop_step cfg price atr s position hpos hact
    apply hart htsn
    rw [heq] at hsome
    simpa [trailingOf] using hsome
  · intro t hts l _
    exact trailingStop_fold_mono cfg l s position hpos hact t hts

def trailLongPosition : Position :=
  { entry_price := 100, entry_time := 0, trade_type := "LONG",
    stop_loss := 94, take_profit_1 := 108, take_profit_2 := 116,
    trailing_stop := some 101, entry_bar := 0, is_active := true,
    quantity := 1 }

def trailLongState : PMState :=
  { current_position := some trailLongPosition, trade_history := [],
    last_buy_bar := 0, last_sell_bar := -999, current_bar := 5 }

/-- Claim C7, witness: a LONG position with trailing stop 101, updated at
non-decreasing prices 110 then 112, keeps a trailing stop that is ≥ 101. -/
theorem trailing_stop_activation_monotone_witness :
    ∃ t', trailingOf (applyTrailingUpdates defaultTradingConfig trailLongState
        [((110 : ℚ), (1 : ℚ)), (112, 1)]) = some t' ∧
      (trailLongPosition.trade_type = "LONG" → (101 : ℚ) ≤ t') ∧
      (trailLongPosition.trade_type ≠ "LONG" → t' ≤ 101) :=
  (trailing_stop_activation_monotone defaultTradingConfig trailLongState
      trailLongPosition rfl rfl).2 101 rfl [(110, 1), (112, 1)]
    (by norm_num [List.chain'_cons])

/-! ## Claim C1: the calculate-signals pipeline -/

/-- Claim C1 (code bug): `calculate_signals` cannot return for any input —
its unguarded subscript sequence on the indicator dictionary requires the
key `'adx'`, which `calculate_all_indicators` never produces (the key set of
that dictionary is fixed, independent of the data), so a `KeyError: 'adx'`
is raised for every input; moreover the `advanced_adx_choppy` /
`advanced_adx_strong_trending` columns consumed by the ADX-based regime
filter are absent from the advanced-condition key set. -/
theorem calculateSignals_missing_adx_key :
    calculateSignalsFirstMissingKey = some "adx" ∧
    calculateAllIndicatorsKeys.contains "adx" = false ∧
    (∀ k ∈ regimeFilterAdvancedKeys,
      calculateAdvancedConditionsKeys.contains k = false) := by
  decide

/-! ## Claim C10: regime-recommended configuration -/

/-- Claim C10: `get_recommended_config` is a total, deterministic mapping on
detected regime labels, always returning an override record (which carries
`allow_long_trades`, `allow_short_trades`, the three multipliers and
`min_bars_gap`), and `BEAR` is the only regime label whose override sets
`allow_long_trades` to `false`. -/
theorem getRecommendedConfig_total_bear_only (r : String) :
    ∃ o : RecommendedConfig, getRecommendedConfig (some r) = .ok o ∧
      (o.allow_long_trades = false ↔ r = "BEAR") := by
  unfold getRecommendedConfig
  by_cases h1 : r = "BULL"
  · subst h1
    exact ⟨_, rfl, by simp⟩
  · dsimp only
    rw [if_neg h1]
    by_cases h2 : r = "BEAR"
    · subst h2
      exact ⟨_, rfl, by simp⟩
    · rw [if_neg h2]
      exact ⟨_, rfl, by simp [h2]⟩

/-! ## Signal generation (`trading_system.py`, `_generate_entry_signals`)

The function consumes a pandas frame whose columns were assembled by
`calculate_signals`.  A numeric column is modelled as `Nat → Option ℚ`
(`none` is a NaN; any comparison involving a NaN is false, as in pandas);
a boolean column as `Nat → Bool`.  The frame built by the source never
contains the `advanced_adx_*` / `advanced_regime_*` columns (see
`calculateAdvancedConditionsKeys`), so the branches that subscript them
raise a `KeyError`; those branches are modelled as errors. -/

/-- A numeric frame column. -/
def NumCol : Type := Nat → Option ℚ

/-- A boolean frame column. -/
def BoolCol : Type := Nat → Bool

/-- pandas `>` on two (possibly NaN) values. -/
def optGT : Option ℚ → Option ℚ → Bool
  | some a, some b => decide (a > b)
  | _, _ => false

/-- pandas `<` on two (possibly NaN) values. -/
def optLT (a b : Option ℚ) : Bool := optGT b a

/-- pandas `series.shift(k)`: `NaN` for the first `k` indices. -/
def shiftCol (k : Nat) (x : NumCol) : NumCol :=
  fun i => if i < k then none else x (i - k)

/-- pandas `series.rolling(w).mean()`: `NaN` until `w` observations exist,
and `NaN` whenever the trailing window contains a `NaN`. -/
def rollingMeanCol (w : Nat) (x : NumCol) : NumCol :=
  fun i =>
    if i + 1 < w ∨ w = 0 then none
    else
      let vals := (List.range w).map (fun j => x (i - j))
      if vals.all Option.isSome then
        some ((vals.foldr (fun v acc => v.getD 0 + acc) 0) / (w : ℚ))
      else none

/-- Scalar multiplication of a (possibly NaN) value. -/
def optMul (x : Option ℚ) (c : ℚ) : Option ℚ := x.map (· * c)

/-- The columns of the signal frame consumed by `_generate_entry_signals`
(exactly those it subscripts and that `calculate_signals` would provide). -/
structure SignalFrame where
  n : Nat
  open_price : NumCol
  close : NumCol
  volume : NumCol
  rsi : NumCol
  macd_line : NumCol
  signal_line : NumCol
  histogram : NumCol
  ema_20 : NumCol
  ema_50 : NumCol
  setup_buy_setup : BoolCol
  setup_sell_setup : BoolCol
  trend_strong_bullish : BoolCol
  trend_strong_bearish : BoolCol
  volume_vol_bull : BoolCol
  volume_vol_bear : BoolCol
  advanced_rsi_bull_momentum : BoolCol
  advanced_rsi_bear_momentum : BoolCol
  advanced_macd_accelerating_bull : BoolCol
  advanced_macd_accelerating_bear : BoolCol
  advanced_trending_market : BoolCol
  advanced_strong_bull_trend : BoolCol
  advanced_strong_bear_trend : BoolCol
  advanced_price_momentum_bull : BoolCol
  advanced_price_momentum_bear : BoolCol
  advanced_high_volatility : BoolCol
  advanced_normal_volatility : BoolCol
  advanced_ema_separation_bull : NumCol
  advanced_ema_separation_bear : NumCol

/-- Professional buy criteria, RSI part. -/
def rsiBuyCriteria (f : SignalFrame) : BoolCol := fun i =>
  optGT (f.rsi i) (some 40) && optLT (f.rsi i) (some 75) &&
  f.advanced_rsi_bull_momentum i

/-- Professional sell criteria, RSI part. -/
def rsiSellCriteria (f : SignalFrame) : BoolCol := fun i =>
  optGT (f.rsi i) (some 25) && optLT (f.rsi i) (some 60) &&
  f.advanced_rsi_bear_momentum i

/-- Professional buy criteria, MACD part. -/
def macdBuyCriteria (f : SignalFrame) : BoolCol := fun i =>
  optGT (f.macd_line i) (f.signal_line i) && optGT (f.histogram i) (some 0) &&
  f.advanced_macd_accelerating_bull i

/-- Professional sell criteria, MACD part. -/
def macdSellCriteria (f : SignalFrame) : BoolCol := fun i =>
  optLT (f.macd_line i) (f.signal_line i) && optLT (f.histogram i) (some 0) &&
  f.advanced_macd_accelerating_bear i

/-- Professional buy market conditions without the regime filter (the
regime-filter variant subscripts the absent `advanced_adx_*` columns). -/
def marketConditionsBuyBase (f : SignalFrame) : BoolCol := fun i =>
  f.advanced_trending_market i && f.advanced_strong_bull_trend i &&
  f.advanced_price_momentum_bull i && !f.advanced_high_volatility i

/-- Professional sell market conditions without the regime filter. -/
def marketConditionsSellBase (f : SignalFrame) : BoolCol := fun i =>
  f.advanced_trending_market i && f.advanced_strong_bear_trend i &&
  f.advanced_price_momentum_bear i && !f.advanced_high_volatility i

/-- Professional (confluence) buy trigger, given the market conditions. -/
def professionalBuyTriggerWith (f : SignalFrame) (mc : BoolCol) : BoolCol :=
  fun i =>
    f.setup_buy_setup i && rsiBuyCriteria f i && macdBuyCriteria f i &&
    mc i && f.volume_vol_bull i

/-- Professional (confluence) sell trigger, given the market conditions. -/
def professionalSellTriggerWith (f : SignalFrame) (mc : BoolCol) : BoolCol :=
  fun i =>
    f.setup_sell_setup i && rsiSellCriteria f i && macdSellCriteria f i &&
    mc i && f.volume_vol_bear i

/-- The enhanced buy trigger of the branch without research mode and without
the regime filter (the other branches subscript absent columns). -/
def originalBuyTriggerBase (f : SignalFrame) : BoolCol := fun i =>
  optGT (f.rsi i) (some 56) && optLT (f.rsi i) (some 70) &&
  optGT (f.rsi i) (shiftCol 1 f.rsi i) &&
  optGT (f.rsi i) (shiftCol 3 f.rsi i) &&
  optGT (f.macd_line i) (f.signal_line i) &&
  optGT (f.histogram i) (some 0) &&
  optGT (f.histogram i) (shiftCol 1 f.histogram i) &&
  optGT (f.macd_line i) (shiftCol 2 f.macd_line i) &&
  optGT (f.close i) (f.ema_20 i) &&
  optGT (f.close i) (f.ema_50 i) &&
  optGT (f.ema_20 i) (f.ema_50 i) &&
  f.trend_strong_bullish i &&
  f.volume_vol_bull i &&
  optGT (f.volume i) (optMul (rollingMeanCol 20 f.volume i) (11/10)) &&
  !f.advanced_high_volatility i

/-- The enhanced sell trigger of the branch without research mode and
without the regime filter. -/
def originalSellTriggerBase (f : SignalFrame) : BoolCol := fun i =>
  optLT (f.rsi i) (some 44) && optGT (f.rsi i) (some 30) &&
  optLT (f.rsi i) (shiftCol 1 f.rsi i) &&
  optLT (f.rsi i) (shiftCol 3 f.rsi i) &&
  optLT (f.macd_line i) (f.signal_line i) &&
  optLT (f.histogram i) (some 0) &&
  optLT (f.histogram i) (shiftCol 1 f.histogram i) &&
  optLT (f.macd_line i) (shiftCol 2 f.macd_line i) &&
  optLT (f.close i) (f.ema_20 i) &&
  optLT (f.close i) (f.ema_50 i) &&
  optLT (f.ema_20 i) (f.ema_50 i) &&
  f.trend_strong_bearish i &&
  f.volume_vol_bear i &&
  optGT (f.volume i) (optMul (rollingMeanCol 20 f.volume i) (11/10)) &&
  !f.advanced_high_volatility i

/-- Ultra-strict additional buy filter. -/
def ultraBuyFilter (f : SignalFrame) : BoolCol := fun i =>
  optGT (f.rsi i) (some 45) && optLT (f.rsi i) (some 70) &&
  optGT (f.rsi i) (shiftCol 2 f.rsi i) &&
  optGT (f.histogram i) (shiftCol 1 f.histogram i) &&
  optGT (f.close i) (f.ema_20 i) &&
  optGT (f.close i) (f.open_price i) &&
  f.advanced_normal_volatility i &&
  optGT (f.advanced_ema_separation_bull i) (some 1) &&
  optGT (f.volume i) (optMul (rollingMeanCol 10 f.volume i) (12/10))

/-- Ultra-strict additional sell filter. -/
def ultraSellFilter (f : SignalFrame) : BoolCol := fun i =>
  optGT (f.rsi i) (some 30) && optLT (f.rsi i) (some 55) &&
  optLT (f.rsi i) (shiftCol 2 f.rsi i) &&
  optLT (f.histogram i) (shiftCol 1 f.histogram i) &&
  optLT (f.close i) (f.ema_20 i) &&
  optLT (f.close i) (f.open_price i) &&
  f.advanced_normal_volatility i &&
  optGT (f.advanced_ema_separation_bear i) (some 1) &&
  optGT (f.volume i) (optMul (rollingMeanCol 10 f.volume i) (12/10))

/-- The minimum-gap de-duplication scan: `i` is the index of the head bar,
`last` the index of the last accepted signal.  An accepted bar keeps its
(buy, sell) pair and becomes the new `last`; a rejected bar is cleared to
`(false, false)` and `last` is carried unchanged. -/
def gapFilterScan (minGap : Int) :
    List (Bool × Bool) → Nat → Option Nat → List (Bool × Bool)
  | [], _, _ => []
  | bs :: rest, i, last =>
    if bs.1 || bs.2 then
      match last with
      | none => bs :: gapFilterScan minGap rest (i + 1) (some i)
      | some l =>
        if (i : Int) - (l : Int) ≥ minGap then
          bs :: gapFilterScan minGap rest (i + 1) (some i)
        else
          (false, false) :: gapFilterScan minGap rest (i + 1) (some l)
    else bs :: gapFilterScan minGap rest (i + 1) last

/-- The non-adaptive gap-filter pass of `_generate_entry_signals`: applied
only when `min_gap > 1`, otherwise the raw signals pass through. -/
def applyGapFilter (minGap : Int) (sigs : List (Bool × Bool)) :
    List (Bool × Bool) :=
  if minGap > 1 then gapFilterScan minGap sigs 0 none else sigs

/-- The signal columns stored into the frame by `_generate_entry_signals`
(materialized as lists of length `n`). -/
structure SignalOutput where
  professional_buy_trigger : List Bool
  professional_sell_trigger : List Bool
  original_buy_trigger : List Bool
  original_sell_trigger : List Bool
  buy_trigger : List Bool
  sell_trigger : List Bool
  buy_signal : List Bool
  sell_signal : List Bool
  buy_confirmed : List Bool
  sell_confirmed : List Bool
  deriving Repr, DecidableEq

/-- `ProTradingSystem._generate_entry_signals`.  Branches that subscript
columns absent from the frame built by `calculate_signals`
(`advanced_adx_choppy`, `advanced_adx_strong_trending`,
`advanced_regime_choppy`) are modelled as the corresponding `KeyError`,
in the source's evaluation order. -/
def genEntrySignals (cfg : TradingConfig) (f : SignalFrame) :
    Except String SignalOutput := do
  let mcBuy ← if cfg.enable_regime_filter then
      Except.error "KeyError: advanced_adx_choppy"
    else Except.ok (marketConditionsBuyBase f)
  let professionalBuy0 := professionalBuyTriggerWith f mcBuy
  let mcSell ← if cfg.enable_regime_filter then
      Except.error "KeyError: advanced_adx_choppy"
    else Except.ok (marketConditionsSellBase f)
  let professionalSell0 := professionalSellTriggerWith f mcSell
  let originalBuy0 ← if cfg.enable_research_mode && cfg.research_simple_signals then
      Except.error "KeyError: advanced_adx_choppy"
    else if cfg.enable_regime_filter then
      Except.error "KeyError: advanced_adx_choppy"
    else Except.ok (originalBuyTriggerBase f)
  let originalSell0 ← if cfg.enable_research_mode && cfg.research_simple_signals then
      Except.error "KeyError: advanced_adx_choppy"
    else if cfg.enable_regime_filter then
      Except.error "KeyError: advanced_adx_choppy"
    else Except.ok (originalSellTriggerBase f)
  let originalBuy : BoolCol :=
    if cfg.allow_long_trades then originalBuy0 else fun _ => false
  let professionalBuy : BoolCol :=
    if cfg.allow_long_trades then professionalBuy0 else fun _ => false
  let originalSell : BoolCol :=
    if cfg.allow_short_trades then originalSell0 else fun _ => false
  let professionalSell : BoolCol :=
    if cfg.allow_short_trades then professionalSell0 else fun _ => false
  let buyTrigger : BoolCol :=
    if cfg.ultra_strict_mode then fun i => professionalBuy i && ultraBuyFilter f i
    else originalBuy
  let sellTrigger : BoolCol :=
    if cfg.ultra_strict_mode then fun i => professionalSell i && ultraSellFilter f i
    else originalSell
  let buySignal : BoolCol := fun i => f.setup_buy_setup i && buyTrigger i
  let sellSignal : BoolCol := fun i => f.setup_sell_setup i && sellTrigger i
  let minGap : Int :=
    if cfg.ultra_strict_mode then 2 * cfg.min_bars_gap else cfg.min_bars_gap
  let sigs : List (Bool × Bool) :=
    (List.range f.n).map (fun i => (buySignal i, sellSignal i))
  let finalSigs ← if cfg.enable_adaptive_gap_filtering then
      Except.error "KeyError: advanced_regime_choppy"
    else Except.ok (applyGapFilter minGap sigs)
  return { professional_buy_trigger := (List.range f.n).map professionalBuy
           professional_sell_trigger := (List.range f.n).map professionalSell
           original_buy_trigger := (List.range f.n).map originalBuy
           original_sell_trigger := (List.range f.n).map originalSell
           buy_trigger := (List.range f.n).map buyTrigger
           sell_trigger := (List.range f.n).map sellTrigger
           buy_signal := (List.range f.n).map buySignal
           sell_signal := (List.range f.n).map sellSignal
           buy_confirmed := finalSigs.map Prod.fst
           sell_confirmed := finalSigs.map Prod.snd }

/-- Either component of a (buy, sell) pair at index `k` is on. -/
def sigOn (l : List (Bool × Bool)) (k : Nat) : Bool :=
  (l.getD k (false, false)).1 || (l.getD k (false, false)).2

theorem gapFilterScan_length (g : Int) :
    ∀ (l : List (Bool × Bool)) (i : Nat) (last : Option Nat),
      (gapFilterScan g l i last).length = l.length := by
  intro l
  induction l with
  | nil => intro i last; rfl
  | cons bs rest ih =>
    intro i last
    simp only [gapFilterScan]
    rcases last with _ | l <;>
      by_cases hb : (bs.1 || bs.2) = true <;>
      simp [hb, ih] <;>
      split <;> simp [ih]

theorem gapFilterScan_getD (g : Int) :
    ∀ (l : List (Bool × Bool)) (i : Nat) (last : Option Nat) (k : Nat),
      (gapFilterScan g l i last).getD k (false, false) =
          l.getD k (false, false) ∨
      (gapFilterScan g l i last).getD k (false, false) = (false, false) := by
  intro l
  induction l with
  | nil => intro i last k; left; rfl
  | cons bs rest ih =>
    intro i last k
    simp only [gapFilterScan]
    by_cases hb : (bs.1 || bs.2) = true
    · rw [if_pos hb]
      rcases last with _ | l <;> dsimp only
      · rcases k with _ | k
        · left; rfl
        · simpa using ih (i + 1) (some i) k
      · by_cases hgap : (i : Int) - (l : Int) ≥ g
        · rw [if_pos hgap]
          rcases k with _ | k
          · left; rfl
          · simpa using ih (i + 1) (some i) k
        · rw [if_neg hgap]
          rcases k with _ | k
          · right; rfl
          · simpa using ih (i + 1) (some l) k
    · rw [if_neg hb]
      rcases k with _ | k
      · left; rfl
      · simpa using ih (i + 1) last k

theorem gapFilterScan_lower (g : Int) :
    ∀ (l : List (Bool × Bool)) (i lst : Nat) (k : Nat), lst ≤ i →
      sigOn (gapFilterScan g l i (some lst)) k = true →
      (i : Int) + (k : Int) - (lst : Int) ≥ g := by
  intro l
  induction l with
  | nil => intro i lst k _ h; simp [sigOn, gapFilterScan] at h
  | cons bs rest ih =>
    intro i lst k hle h
    simp only [gapFilterScan] at h
    by_cases hb : (bs.1 || bs.2) = true
    · rw [if_pos hb] at h
      by_cases hgap : (i : Int) - (lst : Int) ≥ g
      · rw [if_pos hgap] at h
        rcases k with _ | k
        · omega
        · have := ih (i + 1) i k (Nat.le_succ i) (by simpa [sigOn] using h)
          omega
      · rw [if_neg hgap] at h
        rcases k with _ | k
        · simp [sigOn] at h
        · have := ih (i + 1) lst k (by omega) (by simpa [sigOn] using h)
          omega
    · rw [if_neg hb] at h
      rcases k with _ | k
      · simp only [sigOn, List.getD_cons_zero] at h
        exact absurd h (by simpa using hb)
      · have := ih (i + 1) lst k (by omega) (by simpa [sigOn] using h)
        omega

theorem gapFilterScan_pairwise (g : Int) :
    ∀ (l : List (Bool × Bool)) (i : Nat) (last : Option Nat) (k₁ k₂ : Nat),
      (∀ lst, last = some lst → lst ≤ i) → k₁ < k₂ →
      sigOn (gapFilterScan g l i last) k₁ = true →
      sigOn (gapFilterScan g l i last) k₂ = true →
      (k₂ : Int) - (k₁ : Int) ≥ g := by
  intro l
  induction l with
  | nil => intro i last k₁ k₂ _ _ h₁ _; simp [sigOn, gapFilterScan] at h₁
  | cons bs rest ih =>
    intro i last k₁ k₂ hinv hlt h₁ h₂
    simp only [gapFilterScan] at h₁ h₂
    by_cases hb : (bs.1 || bs.2) = true
    · rw [if_pos hb] at h₁ h₂
      rcases last with _ | l <;> dsimp only at h₁ h₂
      · rcases k₁ with _ | k₁
        · obtain ⟨k₂', rfl⟩ : ∃ m, k₂ = m + 1 := ⟨k₂ - 1, by omega⟩
          have := gapFilterScan_lower g rest (i + 1) i k₂'
            (Nat.le_succ i) (by simpa [sigOn] using h₂)
          omega
        · obtain ⟨k₂', rfl⟩ : ∃ m, k₂ = m + 1 := ⟨k₂ - 1, by omega⟩
          have := ih (i + 1) (some i) k₁ k₂'
            (by intro lst hl; cases hl; exact Nat.le_succ i) (by omega)
            (by simpa [sigOn] using h₁) (by simpa [sigOn] using h₂)
          omega
      · by_cases hgap : (i : Int) - (l : Int) ≥ g
        · rw [if_pos hgap] at h₁ h₂
          rcases k₁ with _ | k₁
          · obtain ⟨k₂', rfl⟩ : ∃ m, k₂ = m + 1 := ⟨k₂ - 1, by omega⟩
            have := gapFilterScan_lower g rest (i + 1) i k₂'
              (Nat.le_succ i) (by simpa [sigOn] using h₂)
            omega
          · obtain ⟨k₂', rfl⟩ : ∃ m, k₂ = m + 1 := ⟨k₂ - 1, by omega⟩
            have := ih (i + 1) (some i) k₁ k₂'
              (by intro lst hl; cases hl; exact Nat.le_succ i) (by omega)
              (by simpa [sigOn] using h₁) (by simpa [sigOn] using h₂)
            omega
        · rw [if_neg hgap] at h₁ h₂
          rcases k₁ with _ | k₁
          · simp [sigOn] at h₁
          · obtain ⟨k₂', rfl⟩ : ∃ m, k₂ = m + 1 := ⟨k₂ - 1, by omega⟩
            have hl : l ≤ i := hinv l rfl
            have := ih (i + 1) (some l) k₁ k₂'
              (by intro lst hls; cases hls; omega) (by omega)
              (by simpa [sigOn] using h₁) (by simpa [sigOn] using h₂)
            omega
    · rw [if_neg hb] at h₁ h₂
      rcases k₁ with _ | k₁
      · simp only [sigOn, List.getD_cons_zero] at h₁
        exact absurd h₁ (by simpa using hb)
      · obtain ⟨k₂', rfl⟩ : ∃ m, k₂ = m + 1 := ⟨k₂ - 1, by omega⟩
        have := ih (i + 1) last k₁ k₂'
          (by intro lst hls; have := hinv lst hls; omega) (by omega)
          (by simpa [sigOn] using h₁) (by simpa [sigOn] using h₂)
        omega

theorem applyGapFilter_sep (minGap : Int) (sigs : List (Bool × Bool))
    (i j : Nat) (hij : i < j)
    (hi : sigOn (applyGapFilter minGap sigs) i = true)
    (hj : sigOn (applyGapFilter minGap sigs) j = true) :
    (j : Int) - (i : Int) ≥ minGap ∨ minGap ≤ 1 := by
  unfold applyGapFilter at hi hj
  by_cases hg : minGap > 1
  · rw [if_pos hg] at hi hj
    left
    have := gapFilterScan_pairwise minGap sigs 0 none i j
      (by intro lst h; cases h) hij hi hj
    omega
  · right; omega

theorem applyGapFilter_getD (minGap : Int) (sigs : List (Bool × Bool))
    (k : Nat) :
    (applyGapFilter minGap sigs).getD k (false, false) =
        sigs.getD k (false, false) ∨
    (applyGapFilter minGap sigs).getD k (false, false) = (false, false) := by
  unfold applyGapFilter
  by_cases hg : minGap > 1
  · rw [if_pos hg]
    exact gapFilterScan_getD minGap sigs 0 none k
  · rw [if_neg hg]
    left; rfl

theorem map_fst_getD :
    ∀ (l : List (Bool × Bool)) (k : Nat),
      (l.map Prod.fst).getD k false = (l.getD k (false, false)).1 := by
  intro l
  induction l with
  | nil => intro k; rfl
  | cons a t ih =>
    intro k
    rcases k with _ | k
    · rfl
    · simpa using ih k

theorem map_snd_getD :
    ∀ (l : List (Bool × Bool)) (k : Nat),
      (l.map Prod.snd).getD k false = (l.getD k (false, false)).2 := by
  intro l
  induction l with
  | nil => intro k; rfl
  | cons a t ih =>
    intro k
    rcases k with _ | k
    · rfl
    · simpa using ih k

theorem range_map_getD {α : Type} (n : Nat) (fn : Nat → α) (d : α) (k : Nat)
    (hk : k < n) : ((List.range n).map fn).getD k d = fn k := by
  rw [List.getD_eq_getElem?_getD, List.getElem?_map, List.getElem?_range hk]
  rfl

theorem range_map_getD_oob {α : Type} (n : Nat) (fn : Nat → α) (d : α)
    (k : Nat) (hk : ¬ k < n) : ((List.range n).map fn).getD k d = d := by
  apply List.getD_eq_default
  simpa using Nat.le_of_not_lt hk

/-! Named subexpressions of the successful path of `_generate_entry_signals`
(regime filter off, research mode off, adaptive gap filtering off — the only
configuration in which the function completes without a `KeyError`). -/

/-- The buy trigger after direction gating and ultra-strict selection. -/
def gatedBuyTrigger (cfg : TradingConfig) (f : SignalFrame) : BoolCol :=
  if cfg.ultra_strict_mode then
    fun i =>
      (if cfg.allow_long_trades then
        professionalBuyTriggerWith f (marketConditionsBuyBase f)
       else fun _ => false) i && ultraBuyFilter f i
  else
    if cfg.allow_long_trades then originalBuyTriggerBase f else fun _ => false

/-- The sell trigger after direction gating and ultra-strict selection. -/
def gatedSellTrigger (cfg : TradingConfig) (f : SignalFrame) : BoolCol :=
  if cfg.ultra_strict_mode then
    fun i =>
      (if cfg.allow_short_trades then
        professionalSellTriggerWith f (marketConditionsSellBase f)
       else fun _ => false) i && ultraSellFilter f i
  else
    if cfg.allow_short_trades then originalSellTriggerBase f else fun _ => false

/-- `buy_signal` (pre gap filter): setup confirmation AND the trigger. -/
def buySignalCol (cfg : TradingConfig) (f : SignalFrame) : BoolCol :=
  fun i => f.setup_buy_setup i && gatedBuyTrigger cfg f i

/-- `sell_signal` (pre gap filter). -/
def sellSignalCol (cfg : TradingConfig) (f : SignalFrame) : BoolCol :=
  fun i => f.setup_sell_setup i && gatedSellTrigger cfg f i

/-- The effective minimum gap (doubled in ultra-strict mode). -/
def effMinGap (cfg : TradingConfig) : Int :=
  if cfg.ultra_strict_mode then 2 * cfg.min_bars_gap else cfg.min_bars_gap

/-- The raw per-bar (buy_signal, sell_signal) pairs. -/
def rawSigs (cfg : TradingConfig) (f : SignalFrame) : List (Bool × Bool) :=
  (List.range f.n).map (fun i => (buySignalCol cfg f i, sellSignalCol cfg f i))

/-- The confirmed per-bar pairs, after the gap filter. -/
def confirmedSigs (cfg : TradingConfig) (f : SignalFrame) : List (Bool × Bool) :=
  applyGapFilter (effMinGap cfg) (rawSigs cfg f)

theorem genEntrySignals_ok_spec (cfg : TradingConfig) (f : SignalFrame)
    (out : SignalOutput) (hok : genEntrySignals cfg f = Except.ok out) :
    cfg.enable_regime_filter = false ∧
    (cfg.enable_research_mode && cfg.research_simple_signals) = false ∧
    cfg.enable_adaptive_gap_filtering = false ∧
    out.buy_confirmed = (confirmedSigs cfg f).map Prod.fst ∧
    out.sell_confirmed = (confirmedSigs cfg f).map Prod.snd ∧
    out.buy_signal = (List.range f.n).map (buySignalCol cfg f) ∧
    out.sell_signal = (List.range f.n).map (sellSignalCol cfg f) := by
  unfold genEntrySignals at hok
  by_cases hreg : cfg.enable_regime_filter
  · simp [hreg, Bind.bind, Except.bind] at hok
  · by_cases hres : (cfg.enable_research_mode && cfg.research_simple_signals) = true
    · simp [hreg, hres, Bind.bind, Except.bind] at hok
    · by_cases hada : cfg.enable_adaptive_gap_filtering
      · simp [hreg, hres, hada, Bind.bind, Except.bind] at hok
      · simp only [hreg, hres, hada, Bool.false_eq_true, if_false, if_true,
          Bind.bind, Except.bind, pure, Except.pure, Except.ok.injEq] at hok
        refine ⟨by simpa using hreg, by simpa using hres, by simpa using hada, ?_⟩
        rw [← hok]
        refine ⟨rfl, rfl, rfl, rfl⟩

/-- Claim C6: in every signal frame the generator produces, any two bar
indices carrying a confirmed signal (buy or sell) are at least
`min_bars_gap` apart, and confirmed signals are a subset of the raw signals
at the same indices (rejected signals are cleared, never shifted). -/
theorem gap_invariant (cfg : TradingConfig) (f : SignalFrame)
    (out : SignalOutput) (hok : genEntrySignals cfg f = Except.ok out) :
    (∀ i j : Nat, i < j →
      (out.buy_confirmed.getD i false = true ∨
        out.sell_confirmed.getD i false = true) →
      (out.buy_confirmed.getD j false = true ∨
        out.sell_confirmed.getD j false = true) →
      (j : Int) - (i : Int) ≥ cfg.min_bars_gap) ∧
    (∀ k, out.buy_confirmed.getD k false = true →
      out.buy_signal.getD k false = true) ∧
    (∀ k, out.sell_confirmed.getD k false = true →
      out.sell_signal.getD k false = true) := by
  obtain ⟨-, -, -, hbc, hsc, hbs, hss⟩ := genEntrySignals_ok_spec cfg f out hok
  refine ⟨?_, ?_, ?_⟩
  · intro i j hij hi hj
    have hi' : sigOn (confirmedSigs cfg f) i = true := by
      rcases hi with h | h
      · rw [hbc, map_fst_getD] at h
        unfold sigOn
        rw [h, Bool.true_or]
      · rw [hsc, map_snd_getD] at h
        unfold sigOn
        rw [h, Bool.or_true]
    have hj' : sigOn (confirmedSigs cfg f) j = true := by
      rcases hj with h | h
      · rw [hbc, map_fst_getD] at h
        unfold sigOn
        rw [h, Bool.true_or]
      · rw [hsc, map_snd_getD] at h
        unfold sigOn
        rw [h, Bool.or_true]
    have hsep := applyGapFilter_sep (effMinGap cfg) (rawSigs cfg f) i j hij hi' hj'
    unfold effMinGap at hsep
    by_cases hu : cfg.ultra_strict_mode <;> simp only [hu, if_true, if_false] at hsep <;> omega
  · intro k hk
    rw [hbc, map_fst_getD] at hk
    have hraw : ((rawSigs cfg f).getD k (false, false)).1 = true := by
      rcases applyGapFilter_getD (effMinGap cfg) (rawSigs cfg f) k with hc | hc
      · rw [show confirmedSigs cfg f =
            applyGapFilter (effMinGap cfg) (rawSigs cfg f) from rfl, hc] at hk
        exact hk
      · rw [show confirmedSigs cfg f =
            applyGapFilter (effMinGap cfg) (rawSigs cfg f) from rfl, hc] at hk
        simp at hk
    by_cases hkn : k < f.n
    · rw [hbs, range_map_getD f.n _ false k hkn]
      unfold rawSigs at hraw
      rw [range_map_getD f.n _ (false, false) k hkn] at hraw
      exact hraw
    · unfold rawSigs at hraw
      rw [range_map_getD_oob f.n _ (false, false) k hkn] at hraw
      simp at hraw
  · intro k hk
    rw [hsc, map_snd_getD] at hk
    have hraw : ((rawSigs cfg f).getD k (false, false)).2 = true := by
      rcases applyGapFilter_getD (effMinGap cfg) (rawSigs cfg f) k with hc | hc
      · rw [show confirmedSigs cfg f =
            applyGapFilter (effMinGap cfg) (rawSigs cfg f) from rfl, hc] at hk
        exact hk
      · rw [show confirmedSigs cfg f =
            applyGapFilter (effMinGap cfg) (rawSigs cfg f) from rfl, hc] at hk
        simp at hk
    by_cases hkn : k < f.n
    · rw [hss, range_map_getD f.n _ false k hkn]
      unfold rawSigs at hraw
      rw [range_map_getD f.n _ (false, false) k hkn] at hraw
      exact hraw
    · unfold rawSigs at hraw
      rw [range_map_getD_oob f.n _ (false, false) k hkn] at hraw
      simp at hraw

theorem gatedBuyTrigger_off (cfg : TradingConfig) (f : SignalFrame)
    (h : cfg.allow_long_trades = false) (i : Nat) :
    gatedBuyTrigger cfg f i = false := by
  unfold gatedBuyTrigger
  by_cases hu : cfg.ultra_strict_mode <;> simp [hu, h]

theorem gatedSellTrigger_off (cfg : TradingConfig) (f : SignalFrame)
    (h : cfg.allow_short_trades = false) (i : Nat) :
    gatedSellTrigger cfg f i = false := by
  unfold gatedSellTrigger
  by_cases hu : cfg.ultra_strict_mode <;> simp [hu, h]

/-- Claim C8: if long trades are disabled, every generated signal frame has
`buy_confirmed` false at every index, whatever the indicator data and the
ultra-strict / research-mode branches; symmetrically for short trades and
`sell_confirmed`. -/
theorem direction_gating (cfg : TradingConfig) (f : SignalFrame)
    (out : SignalOutput) (hok : genEntrySignals cfg f = Except.ok out) :
    (cfg.allow_long_trades = false →
      ∀ k, out.buy_confirmed.getD k false = false) ∧
    (cfg.allow_short_trades = false →
      ∀ k, out.sell_confirmed.getD k false = false) := by
  obtain ⟨-, -, -, hbc, hsc, -, -⟩ := genEntrySignals_ok_spec cfg f out hok
  constructor
  · intro hlong k
    rw [hbc, map_fst_getD]
    have hraw : ∀ m, ((rawSigs cfg f).getD m (false, false)).1 = false := by
      intro m
      unfold rawSigs
      by_cases hmn : m < f.n
      · rw [range_map_getD f.n _ (false, false) m hmn]
        simp [buySignalCol, gatedBuyTrigger_off cfg f hlong]
      · rw [range_map_getD_oob f.n _ (false, false) m hmn]
    rcases applyGapFilter_getD (effMinGap cfg) (rawSigs cfg f) k with hc | hc <;>
      rw [show confirmedSigs cfg f =
          applyGapFilter (effMinGap cfg) (rawSigs cfg f) from rfl, hc]
    exact hraw k
  · intro hshort k
    rw [hsc, map_snd_getD]
    have hraw : ∀ m, ((rawSigs cfg f).getD m (false, false)).2 = false := by
      intro m
      unfold rawSigs
      by_cases hmn : m < f.n
      · rw [range_map_getD f.n _ (false, false) m hmn]
        simp [sellSignalCol, gatedSellTrigger_off cfg f hshort]
      · rw [range_map_getD_oob f.n _ (false, false) m hmn]
    rcases applyGapFilter_getD (effMinGap cfg) (rawSigs cfg f) k with hc | hc <;>
      rw [show confirmedSigs cfg f =
          applyGapFilter (effMinGap cfg) (rawSigs cfg f) from rfl, hc]
    exact hraw k

/-! ## Claim C9: causality under prefix-extension -/

/-- Two columns agree at all indices below `k`. -/
def AgreeUpTo {α : Type} (k : Nat) (x y : Nat → α) : Prop :=
  ∀ i, i < k → x i = y i

/-- `g` is the `k`-bar prefix of `f`: same column values below `k`. -/
def FramePrefix (k : Nat) (g f : SignalFrame) : Prop :=
  g.n = k ∧ k ≤ f.n ∧
  AgreeUpTo k g.open_price f.open_price ∧
  AgreeUpTo k g.close f.close ∧
  AgreeUpTo k g.volume f.volume ∧
  AgreeUpTo k g.rsi f.rsi ∧
  AgreeUpTo k g.macd_line f.macd_line ∧
  AgreeUpTo k g.signal_line f.signal_line ∧
  AgreeUpTo k g.histogram f.histogram ∧
  AgreeUpTo k g.ema_20 f.ema_20 ∧
  AgreeUpTo k g.ema_50 f.ema_50 ∧
  AgreeUpTo k g.setup_buy_setup f.setup_buy_setup ∧
  AgreeUpTo k g.setup_sell_setup f.setup_sell_setup ∧
  AgreeUpTo k g.trend_strong_bullish f.trend_strong_bullish ∧
  AgreeUpTo k g.trend_strong_bearish f.trend_strong_bearish ∧
  AgreeUpTo k g.volume_vol_bull f.volume_vol_bull ∧
  AgreeUpTo k g.volume_vol_bear f.volume_vol_bear ∧
  AgreeUpTo k g.advanced_rsi_bull_momentum f.advanced_rsi_bull_momentum ∧
  AgreeUpTo k g.advanced_rsi_bear_momentum f.advanced_rsi_bear_momentum ∧
  AgreeUpTo k g.advanced_macd_accelerating_bull f.advanced_macd_accelerating_bull ∧
  AgreeUpTo k g.advanced_macd_accelerating_bear f.advanced_macd_accelerating_bear ∧
  AgreeUpTo k g.advanced_trending_market f.advanced_trending_market ∧
  AgreeUpTo k g.advanced_strong_bull_trend f.advanced_strong_bull_trend ∧
  AgreeUpTo k g.advanced_strong_bear_trend f.advanced_strong_bear_trend ∧
  AgreeUpTo k g.advanced_price_momentum_bull f.advanced_price_momentum_bull ∧
  AgreeUpTo k g.advanced_price_momentum_bear f.advanced_price_momentum_bear ∧
  AgreeUpTo k g.advanced_high_volatility f.advanced_high_volatility ∧
  AgreeUpTo k g.advanced_normal_volatility f.advanced_normal_volatility ∧
  AgreeUpTo k g.advanced_ema_separation_bull f.advanced_ema_separation_bull ∧
  AgreeUpTo k g.advanced_ema_separation_bear f.advanced_ema_separation_bear

theorem shiftCol_agree {k : Nat} {x y : NumCol} (h : AgreeUpTo k x y)
    (m : Nat) : AgreeUpTo k (shiftCol m x) (shiftCol m y) := by
  intro i hi
  unfold shiftCol
  by_cases hm : i < m
  · simp [hm]
  · simp only [hm, if_false]
    exact h (i - m) (by omega)

theorem rollingMeanCol_agree {k : Nat} {x y : NumCol} (h : AgreeUpTo k x y)
    (w : Nat) : AgreeUpTo k (rollingMeanCol w x) (rollingMeanCol w y) := by
  intro i hi
  unfold rollingMeanCol
  have hvals : (List.range w).map (fun j => x (i - j)) =
      (List.range w).map (fun j => y (i - j)) := by
    apply List.map_congr_left
    intro j _
    exact h (i - j) (by omega)
  rw [hvals]

theorem gapFilterScan_take (g : Int) :
    ∀ (l : List (Bool × Bool)) (k i : Nat) (last : Option Nat),
      gapFilterScan g (l.take k) i last = (gapFilterScan g l i last).take k := by
  intro l
  induction l with
  | nil => intro k i last; simp [gapFilterScan]
  | cons bs rest ih =>
    intro k i last
    rcases k with _ | k
    · simp [gapFilterScan]
    · rw [List.take_succ_cons]
      simp only [gapFilterScan]
      by_cases hb : (bs.1 || bs.2) = true
      · rw [if_pos hb, if_pos hb]
        rcases last with _ | l
        · simp only [List.take_succ_cons, ih]
        · dsimp only
          by_cases hgap : (i : Int) - (l : Int) ≥ g
          · rw [if_pos hgap, if_pos hgap]
            simp only [List.take_succ_cons, ih]
          · rw [if_neg hgap, if_neg hgap]
            simp only [List.take_succ_cons, ih]
      · rw [if_neg hb, if_neg hb]
        simp only [List.take_succ_cons, ih]

theorem applyGapFilter_take (m : Int) (l : List (Bool × Bool)) (k : Nat) :
    applyGapFilter m (l.take k) = (applyGapFilter m l).take k := by
  unfold applyGapFilter
  by_cases h : m > 1 <;> simp [h, gapFilterScan_take]

theorem take_range_map {α : Type} (n k : Nat) (hk : k ≤ n) (fn : Nat → α) :
    ((List.range n).map fn).take k = (List.range k).map fn := by
  rw [← List.map_take, List.take_range]
  congr 2
  omega

theorem getD_take {α : Type} (l : List α) (k i : Nat) (hi : i < k) (d : α) :
    (l.take k).getD i d = l.getD i d := by
  rw [List.getD_eq_getElem?_getD, List.getD_eq_getElem?_getD,
    List.getElem?_take_of_lt hi]

theorem signalCols_agree (cfg : TradingConfig) {k : Nat} {g f : SignalFrame}
    (hpre : FramePrefix k g f) :
    AgreeUpTo k (buySignalCol cfg g) (buySignalCol cfg f) ∧
    AgreeUpTo k (sellSignalCol cfg g) (sellSignalCol cfg f) := by
  obtain ⟨hn, hkn, hopen, hclose, hvol, hrsi, hmacd, hsig, hhist, he20, he50,
    hsbb, hsss, htsb, htsb2, hvvb, hvvs, harbm, harsm, hamab, hamas, hatm,
    hasbt, hasst, hapmb, hapms, hahv, hanv, hesb, hess⟩ := hpre
  constructor <;> intro i hi
  · unfold buySignalCol gatedBuyTrigger
    have h1 : rsiBuyCriteria g i = rsiBuyCriteria f i := by
      unfold rsiBuyCriteria
      rw [hrsi i hi, harbm i hi]
    have h2 : macdBuyCriteria g i = macdBuyCriteria f i := by
      unfold macdBuyCriteria
      rw [hmacd i hi, hsig i hi, hhist i hi, hamab i hi]
    have h3 : marketConditionsBuyBase g i = marketConditionsBuyBase f i := by
      unfold marketConditionsBuyBase
      rw [hatm i hi, hasbt i hi, hapmb i hi, hahv i hi]
    have h4 : professionalBuyTriggerWith g (marketConditionsBuyBase g) i =
        professionalBuyTriggerWith f (marketConditionsBuyBase f) i := by
      unfold professionalBuyTriggerWith
      rw [hsbb i hi, h1, h2, h3, hvvb i hi]
    have h5 : originalBuyTriggerBase g i = originalBuyTriggerBase f i := by
      unfold originalBuyTriggerBase
      rw [hrsi i hi, shiftCol_agree hrsi 1 i hi, shiftCol_agree hrsi 3 i hi,
        hmacd i hi, hsig i hi, hhist i hi, shiftCol_agree hhist 1 i hi,
        shiftCol_agree hmacd 2 i hi, hclose i hi, he20 i hi, he50 i hi,
        htsb i hi, hvvb i hi, hvol i hi, rollingMeanCol_agree hvol 20 i hi,
        hahv i hi]
    have h6 : ultraBuyFilter g i = ultraBuyFilter f i := by
      unfold ultraBuyFilter
      rw [hrsi i hi, shiftCol_agree hrsi 2 i hi, hhist i hi,
        shiftCol_agree hhist 1 i hi, hclose i hi, he20 i hi, hopen i hi,
        hanv i hi, hesb i hi, hvol i hi, rollingMeanCol_agree hvol 10 i hi]
    rw [hsbb i hi]
    by_cases hu : cfg.ultra_strict_mode <;> by_cases hl : cfg.allow_long_trades <;>
      simp [hu, hl, h4, h5, h6]
  · unfold sellSignalCol gatedSellTrigger
    have h1 : rsiSellCriteria g i = rsiSellCriteria f i := by
      unfold rsiSellCriteria
      rw [hrsi i hi, harsm i hi]
    have h2 : macdSellCriteria g i = macdSellCriteria f i := by
      unfold macdSellCriteria
      rw [hmacd i hi, hsig i hi, hhist i hi, hamas i hi]
    have h3 : marketConditionsSellBase g i = marketConditionsSellBase f i := by
      unfold marketConditionsSellBase
      rw [hatm i hi, hasst i hi, hapms i hi, hahv i hi]
    have h4 : professionalSellTriggerWith g (marketConditionsSellBase g) i =
        professionalSellTriggerWith f (marketConditionsSellBase f) i := by
      unfold professionalSellTriggerWith
      rw [hsss i hi, h1, h2, h3, hvvs i hi]
    have h5 : originalSellTriggerBase g i = originalSellTriggerBase f i := by
      unfold originalSellTriggerBase
      rw [hrsi i hi, shiftCol_agree hrsi 1 i hi, shiftCol_agree hrsi 3 i hi,
        hmacd i hi, hsig i hi, hhist i hi, shiftCol_agree hhist 1 i hi,
        shiftCol_agree hmacd 2 i hi, hclose i hi, he20 i hi, he50 i hi,
        htsb2 i hi, hvvs i hi, hvol i hi, rollingMeanCol_agree hvol 20 i hi,
        hahv i hi]
    have h6 : ultraSellFilter g i = ultraSellFilter f i := by
      unfold ultraSellFilter
      rw [hrsi i hi, shiftCol_agree hrsi 2 i hi, hhist i hi,
        shiftCol_agree hhist 1 i hi, hclose i hi, he20 i hi, hopen i hi,
        hanv i hi, hess i hi, hvol i hi, rollingMeanCol_agree hvol 10 i hi]
    rw [hsss i hi]
    by_cases hu : cfg.ultra_strict_mode <;> by_cases hl : cfg.allow_short_trades <;>
      simp [hu, hl, h4, h5, h6]

/-- Claim C9: the signal generator is causal under prefix-extension — run on
a `k`-bar prefix of a frame, it produces the same `buy_confirmed` /
`sell_confirmed` values at every index below `k` as the run on the full
frame (the output at bar `T` depends only on column data at indices
`≤ T`). -/
theorem no_lookahead (cfg : TradingConfig) (f g : SignalFrame) (k : Nat)
    (hpre : FramePrefix k g f) (outF outG : SignalOutput)
    (hf : genEntrySignals cfg f = Except.ok outF)
    (hg : genEntrySignals cfg g = Except.ok outG) :
    ∀ i, i < k →
      outG.buy_confirmed.getD i false = outF.buy_confirmed.getD i false ∧
      outG.sell_confirmed.getD i false = outF.sell_confirmed.getD i false := by
  obtain ⟨-, -, -, hbcF, hscF, -, -⟩ := genEntrySignals_ok_spec cfg f outF hf
  obtain ⟨-, -, -, hbcG, hscG, -, -⟩ := genEntrySignals_ok_spec cfg g outG hg
  have hagree := signalCols_agree cfg hpre
  have hraw : rawSigs cfg g = (rawSigs cfg f).take k := by
    unfold rawSigs
    rw [hpre.1, take_range_map f.n k hpre.2.1]
    apply List.map_congr_left
    intro i hi
    have hik : i < k := List.mem_range.mp hi
    rw [hagree.1 i hik, hagree.2 i hik]
  have hconf : confirmedSigs cfg g = (confirmedSigs cfg f).take k := by
    unfold confirmedSigs
    rw [hraw, applyGapFilter_take]
  intro i hik
  constructor
  · rw [hbcG, hbcF, map_fst_getD, map_fst_getD, hconf, getD_take _ k i hik]
  · rw [hscG, hscF, map_snd_getD, map_snd_getD, hconf, getD_take _ k i hik]

/-- A frame whose numeric columns are all NaN and whose boolean columns are
all false. -/
def trivialFrame1 : SignalFrame :=
  { n := 1
    open_price := fun _ => none
    close := fun _ => none
    volume := fun _ => none
    rsi := fun _ => none
    macd_line := fun _ => none
    signal_line := fun _ => none
    histogram := fun _ => none
    ema_20 := fun _ => none
    ema_50 := fun _ => none
    setup_buy_setup := fun _ => false
    setup_sell_setup := fun _ => false
    trend_strong_bullish := fun _ => false
    trend_strong_bearish := fun _ => false
    volume_vol_bull := fun _ => false
    volume_vol_bear := fun _ => false
    advanced_rsi_bull_momentum := fun _ => false
    advanced_rsi_bear_momentum := fun _ => false
    advanced_macd_accelerating_bull := fun _ => false
    advanced_macd_accelerating_bear := fun _ => false
    advanced_trending_market := fun _ => false
    advanced_strong_bull_trend := fun _ => false
    advanced_strong_bear_trend := fun _ => false
    advanced_price_momentum_bull := fun _ => false
    advanced_price_momentum_bear := fun _ => false
    advanced_high_volatility := fun _ => false
    advanced_normal_volatility := fun _ => false
    advanced_ema_separation_bull := fun _ => none
    advanced_ema_separation_bear := fun _ => none }

/-- The same columns over two bars. -/
def trivialFrame2 : SignalFrame := { trivialFrame1 with n := 2 }

/-- A configuration on which `_generate_entry_signals` completes (regime
filter off), with both directions disabled. -/
def gatingCfg : TradingConfig :=
  { allow_long_trades := false, allow_short_trades := false,
    enable_regime_filter := false }

/-- A configuration on which `_generate_entry_signals` completes. -/
def plainCfg : TradingConfig := { enable_regime_filter := false }

def allFalseOut1 : SignalOutput :=
  { professional_buy_trigger := [false]
    professional_sell_trigger := [false]
    original_buy_trigger := [false]
    original_sell_trigger := [false]
    buy_trigger := [false]
    sell_trigger := [false]
    buy_signal := [false]
    sell_signal := [false]
    buy_confirmed := [false]
    sell_confirmed := [false] }

def allFalseOut2 : SignalOutput :=
  { professional_buy_trigger := [false, false]
    professional_sell_trigger := [false, false]
    original_buy_trigger := [false, false]
    original_sell_trigger := [false, false]
    buy_trigger := [false, false]
    sell_trigger := [false, false]
    buy_signal := [false, false]
    sell_signal := [false, false]
    buy_confirmed := [false, false]
    sell_confirmed := [false, false] }

/-- Claim C8, witness: a concrete run with both directions disabled yields a
frame with all-false confirmed columns. -/
theorem direction_gating_witness :
    genEntrySignals gatingCfg trivialFrame1 = Except.ok allFalseOut1 ∧
    (∀ k, allFalseOut1.buy_confirmed.getD k false = false) ∧
    (∀ k, allFalseOut1.sell_confirmed.getD k false = false) := by
  have hok : genEntrySignals gatingCfg trivialFrame1 = Except.ok allFalseOut1 := by
    rfl
  exact ⟨hok,
    (direction_gating gatingCfg trivialFrame1 allFalseOut1 hok).1 rfl,
    (direction_gating gatingCfg trivialFrame1 allFalseOut1 hok).2 rfl⟩

/-- Claim C9, witness: a 1-bar prefix of a 2-bar frame yields the same
confirmed values at index 0. -/
theorem no_lookahead_witness :
    allFalseOut1.buy_confirmed.getD 0 false =
      allFalseOut2.buy_confirmed.getD 0 false ∧
    allFalseOut1.sell_confirmed.getD 0 false =
      allFalseOut2.sell_confirmed.getD 0 false :=
  no_lookahead plainCfg trivialFrame2 trivialFrame1 1
    ⟨rfl, by decide, fun i _ => rfl, fun i _ => rfl, fun i _ => rfl,
     fun i _ => rfl, fun i _ => rfl, fun i _ => rfl, fun i _ => rfl,
     fun i _ => rfl, fun i _ => rfl, fun i _ => rfl, fun i _ => rfl,
     fun i _ => rfl, fun i _ => rfl, fun i _ => rfl, fun i _ => rfl,
     fun i _ => rfl, fun i _ => rfl, fun i _ => rfl, fun i _ => rfl,
     fun i _ => rfl, fun i _ => rfl, fun i _ => rfl, fun i _ => rfl,
     fun i _ => rfl, fun i _ => rfl, fun i _ => rfl, fun i _ => rfl,
     fun i _ => rfl⟩
    allFalseOut2 allFalseOut1 (by rfl) (by rfl) 0 (by decide)

def c6cfg : TradingConfig :=
  { min_bars_gap := 1, ultra_strict_mode := true, enable_regime_filter := false }

def c6rsiVals : List ℚ := [57, 58, 59, 60, 61, 62, 63, 64, 65, 66, 67, 68]
def c6histVals : List ℚ := [1, 2, 3, 4, 5, 6, 7, 8, 9, 10, 11, 12]
def c6volVals : List ℚ :=
  [100, 200, 300, 400, 500, 600, 700, 800, 900, 1000, 1100, 1200]

/-- A 12-bar frame on which the generator emits raw buy signals at bars 9
and 11 (ultra-strict path; rising RSI/histogram, strong volume). -/
def c6frame : SignalFrame :=
  { n := 12
    open_price := fun _ => some 99
    close := fun _ => some 100
    volume := fun i => (c6volVals.map some).getD i none
    rsi := fun i => (c6rsiVals.map some).getD i none
    macd_line := fun _ => some 1
    signal_line := fun _ => some 0
    histogram := fun i => (c6histVals.map some).getD i none
    ema_20 := fun _ => some 90
    ema_50 := fun _ => some 80
    setup_buy_setup := fun i => i == 9 || i == 11
    setup_sell_setup := fun _ => false
    trend_strong_bullish := fun _ => true
    trend_strong_bearish := fun _ => false
    volume_vol_bull := fun _ => true
    volume_vol_bear := fun _ => false
    advanced_rsi_bull_momentum := fun _ => true
    advanced_rsi_bear_momentum := fun _ => false
    advanced_macd_accelerating_bull := fun _ => true
    advanced_macd_accelerating_bear := fun _ => false
    advanced_trending_market := fun _ => true
    advanced_strong_bull_trend := fun _ => true
    advanced_strong_bear_trend := fun _ => false
    advanced_price_momentum_bull := fun _ => true
    advanced_price_momentum_bear := fun _ => false
    advanced_high_volatility := fun _ => false
    advanced_normal_volatility := fun _ => true
    advanced_ema_separation_bull := fun _ => some 2
    advanced_ema_separation_bear := fun _ => none }

def c6out : SignalOutput :=
  { professional_buy_trigger :=
      [false, false, false, false, false, false, false, false, false, true,
       false, true]
    professional_sell_trigger :=
      [false, false, false, false, false, false, false, false, false, false,
       false, false]
    original_buy_trigger :=
      [false, false, false, false, false, false, false, false, false, false,
       false, false]
    original_sell_trigger :=
      [false, false, false, false, false, false, false, false, false, false,
       false, false]
    buy_trigger :=
      [false, false, false, false, false, false, false, false, false, true,
       false, true]
    sell_trigger :=
      [false, false, false, false, false, false, false, false, false, false,
       false, false]
    buy_signal :=
      [false, false, false, false, false, false, false, false, false, true,
       false, true]
    sell_signal :=
      [false, false, false, false, false, false, false, false, false, false,
       false, false]
    buy_confirmed :=
      [false, false, false, false, false, false, false, false, false, true,
       false, true]
    sell_confirmed :=
      [false, false, false, false, false, false, false, false, false, false,
       false, false] }

/-- Claim C6, witness: on a run producing confirmed buy signals at bars 9
and 11 (with doubled ultra-strict gap 2), the two confirmed indices are at
least `min_bars_gap` apart. -/
theorem gap_invariant_witness :
    (11 : Int) - (9 : Int) ≥ c6cfg.min_bars_gap := by
  have hok : genEntrySignals c6cfg c6frame = Except.ok c6out := by
    with_unfolding_all rfl
  exact (gap_invariant c6cfg c6frame c6out hok).1 9 11 (by decide)
    (Or.inl (by decide)) (Or.inl (by decide))
